import Mathlib

/-!
Verification of the PR preview orchestrator (`manage-preview.py`).

The repository contains two near-duplicate Python scripts:
  * `src/scripts/manage-preview.py`                 (embedded below as `V1`)
  * `src/pr-preview-system/scripts/manage-preview.py` (embedded below as `V2`)

Each defines a `PreviewManager` driving an AWS Lightsail client.  The cloud
provider is modelled as an oracle (`Provider`): each API operation is a pure
function from its arguments (plus, for `get_instance`, a call counter playing
the role of time) to a result that is either a value, a NotFoundException, or
another exception.  Python time is idealised so that only the fixed
`time.sleep(10)` calls of the readiness poll advance the clock.  Functions
that drive a flow additionally return the sequence of provider calls they
issue, so that claims about "no network call" or "creation at most once" are
statable.
-/

/-- Result of one cloud-provider API call: a success value, the provider's
NotFoundException, or any other exception (with its message). -/
inductive ApiResult (α : Type) where
  | ok (val : α)
  | notFound
  | err (msg : String)
deriving DecidableEq

/-- Outcome of a Python call that may raise an uncaught exception. -/
inductive PyResult (α : Type) where
  | ok (val : α)
  | exc (msg : String)
deriving DecidableEq

/-- The attributes of a Lightsail instance record that the scripts consume:
`instance['state']['name']` and the optional `instance['publicIpAddress']`
(absent until the instance is running). -/
structure Instance where
  stateName : String
  publicIpAddress : Option String
deriving DecidableEq

/-- Oracle for the Lightsail client.  `getInstance` takes the instance name
and a per-invocation call counter (the poll loop observes different states
over time); the other operations are keyed by instance name only: the extra
payload of the Python calls (zone, blueprint, bundle, user data, tags, port
list) does not influence the modelled outcome. -/
structure Provider where
  getInstance : String → Nat → ApiResult Instance
  createInstances : String → ApiResult Unit
  putInstancePublicPorts : String → ApiResult Unit
  deleteInstance : String → ApiResult Unit

/-- One provider call (or the deployment step) issued by a flow, recorded in
the order the Python code performs them. -/
inductive Event where
  | getCall (name : String)
  | createCall (name : String)
  | portsCall (name : String)
  | deleteCall (name : String)
  | deployStep (name : String) (ip : String)
deriving DecidableEq

/-- Overall outcome of `create_preview`: normal return `True` with the
instance address, a `sys.exit(1)`, an uncaught `KeyError` (missing
`publicIpAddress` key), or another uncaught exception. -/
inductive CreateResult where
  | ok (ip : String)
  | exit1
  | keyErr
  | exc (msg : String)
deriving DecidableEq

/-- Parsed command line of `main` (argparse): `action` is `create` or
`delete`; `branch` and `commit_sha` are optional flags (`none` when the flag
is absent). -/
structure Args where
  action : String
  pr_number : Int
  repo_name : String
  branch : Option String
  commit_sha : Option String

/-- Python truthiness test `not args.branch` on an optional string: true for
`None` and for the empty string. -/
def strFalsy : Option String → Bool
  | none => true
  | some s => s == ""

/-! ## String helpers (embeddings of the Python builtins used) -/

/-- Embeds the single-character `str.replace(old, new)` calls of the scripts:
every occurrence of `old` is replaced by `new`. -/
def pyReplaceChar (old new : Char) (s : List Char) : List Char :=
  s.map (fun c => if c = old then new else c)

/-- Embeds `s.split(sep)[-1]` for a one-character separator: the suffix of
`s` after the last occurrence of `sep` (all of `s` when `sep` is absent,
empty when `s` ends in `sep`, matching Python list-of-parts semantics). -/
def splitLastComponent (sep : Char) : List Char → List Char
  | [] => []
  | c :: cs =>
    if cs.contains sep then splitLastComponent sep cs
    else if c = sep then cs
    else c :: splitLastComponent sep cs

/-- Decimal digits of a natural number, most significant first, computed with
explicit fuel so that the kernel can evaluate it; `natToStr` supplies fuel
`n + 1`, which always exceeds the number of decimal digits of `n`. -/
def natToDigitsAux : Nat → Nat → List Char
  | 0, _ => []
  | fuel + 1, n =>
    if n < 10 then [Nat.digitChar n]
    else natToDigitsAux fuel (n / 10) ++ [Nat.digitChar (n % 10)]

/-- Decimal representation of a natural number (Python `str` on a
non-negative `int`). -/
def natToStr (n : Nat) : List Char := natToDigitsAux (n + 1) n

/-- Embeds Python `str(int)` / f-string interpolation of an `int`: a minus
sign followed by the digits for negative numbers, plain digits otherwise. -/
def intToStr (i : Int) : List Char :=
  if i < 0 then '-' :: natToStr i.natAbs else natToStr i.toNat

/-! ## Variant 1: `src/scripts/manage-preview.py` -/

namespace V1

/-- Embeds `PreviewManager.get_instance_name`: drop the repo owner
(`split('/')[-1]`), replace `_` and `.` by `-`, build
`f"pr-\x7bpr_number\x7d-\x7bclean_repo\x7d"` and truncate to 63 characters. -/
def get_instance_name (pr_number : Int) (repo_name : String) : String :=
  let clean_repo :=
    pyReplaceChar '.' '-' (pyReplaceChar '_' '-' (splitLastComponent '/' repo_name.data))
  ⟨((("pr-".data ++ intToStr pr_number) ++ "-".data) ++ clean_repo).take 63⟩

/-- Embeds `PreviewManager.instance_exists`: one `get_instance` call at call
counter `t`; NotFoundException yields `False`, success yields `True`, any
other exception propagates. -/
def instance_exists (P : Provider) (instance_name : String) (t : Nat) : PyResult Bool :=
  match P.getInstance instance_name t with
  | .ok _ => .ok true
  | .notFound => .ok false
  | .err m => .exc m

/-- Embeds `PreviewManager.create_instance`: one `create_instances` call; the
templated user-data script, zone, blueprint, bundle and tags only shape the
call payload.  Every exception is caught (`except Exception`), returning
`False`; success returns `True`. -/
def create_instance (P : Provider) (instance_name : String) (pr_number : Int)
    (repo_name : String) (branch : String) : Bool :=
  match P.createInstances instance_name with
  | .ok _ => true
  | .notFound => false
  | .err _ => false

/-- Loop body of `wait_for_instance`, with iteration counter `i` (time
elapsed is `10 * i` seconds: both loop branches `time.sleep(10)`) and fuel
for structural recursion.  Returns the found address (if any) and the number
of `get_instance` queries made; queries use call counters `t0 + i`.  Any
exception from the query — NotFoundException included — is caught and the
loop retries after sleeping. -/
def wfiGo (P : Provider) (instance_name : String) (t0 : Nat) (max_wait : Nat) :
    Nat → Nat → Option String × Nat
  | 0, _ => (none, 0)
  | fuel + 1, i =>
    if 10 * i < max_wait then
      match P.getInstance instance_name (t0 + i) with
      | .ok inst =>
        if inst.stateName == "running" && inst.publicIpAddress.isSome then
          (inst.publicIpAddress, 1)
        else
          let r := wfiGo P instance_name t0 max_wait fuel (i + 1)
          (r.1, r.2 + 1)
      | _ =>
        let r := wfiGo P instance_name t0 max_wait fuel (i + 1)
        (r.1, r.2 + 1)
    else (none, 0)

/-- Embeds `PreviewManager.wait_for_instance` (default `max_wait=300`): poll
`get_instance` while elapsed time is below `max_wait`, returning the public
address as soon as the state is `running` and the `publicIpAddress` key is
present, else `None` on timeout; also returns the number of queries made.
The fuel `max_wait / 10 + 1` bounds the number of loop iterations, which is
at most `(max_wait + 9) / 10`. -/
def wait_for_instance (P : Provider) (instance_name : String) (t0 : Nat)
    (max_wait : Nat := 300) : Option String × Nat :=
  wfiGo P instance_name t0 max_wait (max_wait / 10 + 1) 0

/-- Embeds `PreviewManager.configure_firewall`: one `put_instance_public_ports`
call opening the fixed port list; every exception is caught, returning
`False`; success returns `True`. -/
def configure_firewall (P : Provider) (instance_name : String) : Bool :=
  match P.putInstancePublicPorts instance_name with
  | .ok _ => true
  | .notFound => false
  | .err _ => false

/-- Embeds `PreviewManager.deploy_application` of variant 1: prints, sleeps
120 seconds waiting for the boot-time user-data script, makes no provider
call, and unconditionally returns `True`. -/
def deploy_application (instance_name : String) (instance_ip : String)
    (repo_name : String) (branch : String) (commit_sha : String) : Bool :=
  true

/-- Embeds `PreviewManager.delete_instance`: one `delete_instance` call;
NotFoundException is treated as success (`True`), any other exception yields
`False`. -/
def delete_instance (P : Provider) (instance_name : String) : Bool :=
  match P.deleteInstance instance_name with
  | .ok _ => true
  | .notFound => true
  | .err _ => false

/-- Embeds `PreviewManager.create_preview`, returning the outcome and the
sequence of provider calls.  When the instance already exists, the code
fetches it again and reads `response['instance']['publicIpAddress']` with a
plain dict subscript: a missing key raises an uncaught KeyError.  On the
fresh path it creates the instance (`sys.exit(1)` on failure), polls with
`wait_for_instance` and applies the Python falsy test
`if not instance_ip: sys.exit(1)` — which fires on the timeout `None` and
also on an empty address string — then configures the firewall with the
result discarded, deploys (result discarded) and returns `True`. -/
def create_preview (P : Provider) (pr_number : Int) (repo_name : String)
    (branch : String) (commit_sha : String) : CreateResult × List Event :=
  let instance_name := get_instance_name pr_number repo_name
  match instance_exists P instance_name 0 with
  | .exc m => (.exc m, [.getCall instance_name])
  | .ok true =>
    match P.getInstance instance_name 1 with
    | .ok inst =>
      match inst.publicIpAddress with
      | some instance_ip =>
        let _ := deploy_application instance_name instance_ip repo_name branch commit_sha
        (.ok instance_ip,
          [.getCall instance_name, .getCall instance_name,
           .deployStep instance_name instance_ip])
      | none => (.keyErr, [.getCall instance_name, .getCall instance_name])
    | .notFound =>
      (.exc "NotFoundException", [.getCall instance_name, .getCall instance_name])
    | .err m => (.exc m, [.getCall instance_name, .getCall instance_name])
  | .ok false =>
    if create_instance P instance_name pr_number repo_name branch then
      match wait_for_instance P instance_name 1 300 with
      | (some instance_ip, q) =>
        if instance_ip == "" then
          (.exit1,
            ([.getCall instance_name, .createCall instance_name] ++
              List.replicate q (.getCall instance_name)))
        else
          let _ := configure_firewall P instance_name
          let _ := deploy_application instance_name instance_ip repo_name branch commit_sha
          (.ok instance_ip,
            ([.getCall instance_name, .createCall instance_name] ++
              List.replicate q (.getCall instance_name)) ++
            [.portsCall instance_name, .deployStep instance_name instance_ip])
      | (none, q) =>
        (.exit1,
          ([.getCall instance_name, .createCall instance_name] ++
            List.replicate q (.getCall instance_name)))
    else (.exit1, [.getCall instance_name, .createCall instance_name])

/-- Embeds `PreviewManager.delete_preview`: derive the name and call
`delete_instance`. -/
def delete_preview (P : Provider) (pr_number : Int) (repo_name : String) :
    Bool × List Event :=
  let instance_name := get_instance_name pr_number repo_name
  (delete_instance P instance_name, [.deleteCall instance_name])

/-- Embeds `main`: for `create`, a falsy (absent or empty) `--branch` or
`--commit-sha` exits 1 before any provider call (constructing the boto3
client performs no network call); otherwise the exit code is 0 exactly when
`create_preview` returns `True` (`sys.exit(1)` inside it and uncaught
exceptions both end the process with exit code 1).  For `delete`, the exit
code reflects `delete_preview`.  Returns the exit code and the provider
calls made. -/
def main (P : Provider) (a : Args) : Nat × List Event :=
  if a.action = "create" then
    if strFalsy a.branch || strFalsy a.commit_sha then (1, [])
    else
      match create_preview P a.pr_number a.repo_name (a.branch.getD "")
          (a.commit_sha.getD "") with
      | (.ok _, tr) => (0, tr)
      | (.exit1, tr) => (1, tr)
      | (.keyErr, tr) => (1, tr)
      | (.exc _, tr) => (1, tr)
  else
    match delete_preview P a.pr_number a.repo_name with
    | (true, tr) => (0, tr)
    | (false, tr) => (1, tr)

end V1

/-! ## Variant 2: `src/pr-preview-system/scripts/manage-preview.py`

The five functions below are textually identical to their `V1` counterparts
in the Python source; `create_instance` differs (no user data) and
`deploy_application` differs (fixed 60-second sleep, then a deploy script is
templated and written to `/tmp/deploy.sh` — never uploaded — and `True` is
returned). -/

namespace V2

/-- Embeds `PreviewManager.get_instance_name` of variant 2 (textually
identical to variant 1 in the source). -/
def get_instance_name (pr_number : Int) (repo_name : String) : String :=
  let clean_repo :=
    pyReplaceChar '.' '-' (pyReplaceChar '_' '-' (splitLastComponent '/' repo_name.data))
  ⟨((("pr-".data ++ intToStr pr_number) ++ "-".data) ++ clean_repo).take 63⟩

/-- Embeds `PreviewManager.instance_exists` of variant 2 (textually identical
to variant 1 in the source). -/
def instance_exists (P : Provider) (instance_name : String) (t : Nat) : PyResult Bool :=
  match P.getInstance instance_name t with
  | .ok _ => .ok true
  | .notFound => .ok false
  | .err m => .exc m

/-- Loop body of variant 2 `wait_for_instance` (textually identical loop in
the source). -/
def wfiGo (P : Provider) (instance_name : String) (t0 : Nat) (max_wait : Nat) :
    Nat → Nat → Option String × Nat
  | 0, _ => (none, 0)
  | fuel + 1, i =>
    if 10 * i < max_wait then
      match P.getInstance instance_name (t0 + i) with
      | .ok inst =>
        if inst.stateName == "running" && inst.publicIpAddress.isSome then
          (inst.publicIpAddress, 1)
        else
          let r := wfiGo P instance_name t0 max_wait fuel (i + 1)
          (r.1, r.2 + 1)
      | _ =>
        let r := wfiGo P instance_name t0 max_wait fuel (i + 1)
        (r.1, r.2 + 1)
    else (none, 0)

/-- Embeds `PreviewManager.wait_for_instance` of variant 2 (textually
identical to variant 1 in the source). -/
def wait_for_instance (P : Provider) (instance_name : String) (t0 : Nat)
    (max_wait : Nat := 300) : Option String × Nat :=
  wfiGo P instance_name t0 max_wait (max_wait / 10 + 1) 0

/-- Embeds `PreviewManager.configure_firewall` of variant 2 (textually
identical to variant 1 in the source, same fixed port list). -/
def configure_firewall (P : Provider) (instance_name : String) : Bool :=
  match P.putInstancePublicPorts instance_name with
  | .ok _ => true
  | .notFound => false
  | .err _ => false

/-- Embeds `PreviewManager.deploy_application` of variant 2: prints, sleeps
60 seconds, templates a deployment shell script and writes it to
`/tmp/deploy.sh` (it is never transferred to the instance), makes no
provider call, and unconditionally returns `True`. -/
def deploy_application (instance_name : String) (instance_ip : String)
    (repo_name : String) (branch : String) (commit_sha : String) : Bool :=
  true

/-- Embeds `PreviewManager.delete_instance` of variant 2 (textually identical
to variant 1 in the source). -/
def delete_instance (P : Provider) (instance_name : String) : Bool :=
  match P.deleteInstance instance_name with
  | .ok _ => true
  | .notFound => true
  | .err _ => false

end V2

/-! ## Predicates and stub providers used to state the claims -/

/-- Characters the spec allows in a derived name: lowercase letters, digits,
dash. -/
def lowerAlnumDash (c : Char) : Bool :=
  c.isLower || c.isDigit || c == '-'

/-- Letters of either case, digits, dash. -/
def alnumDash (c : Char) : Bool :=
  c.isAlpha || c.isDigit || c == '-'

/-- Characters occurring in well-formed `owner/name` repository identifiers:
letters, digits, dash, underscore, dot, slash. -/
def repoIdentChar (c : Char) : Bool :=
  c.isAlpha || c.isDigit || c == '-' || c == '_' || c == '.' || c == '/'

/-- The address, if any, that one `get_instance` response hands to the
readiness poll: present exactly when the state is `running` and the
`publicIpAddress` key is there; NotFoundException and other errors carry no
address (the loop retries on them). -/
def readyResp : ApiResult Instance → Option String
  | .ok inst =>
    if inst.stateName == "running" && inst.publicIpAddress.isSome
    then inst.publicIpAddress else none
  | .notFound => none
  | .err _ => none

/-- Recogniser for `create_instances` calls in a trace. -/
def isCreateCall : Event → Bool
  | .createCall _ => true
  | _ => false

/-- Number of `create_instances` calls in a trace. -/
def countCreate (tr : List Event) : Nat :=
  (tr.filter isCreateCall).length

/-- Stub provider whose every operation reports NotFoundException. -/
def notFoundProvider : Provider :=
  { getInstance := fun _ _ => .notFound
    createInstances := fun _ => .notFound
    putInstancePublicPorts := fun _ => .notFound
    deleteInstance := fun _ => .notFound }

/-- Stub provider holding one running instance with address `1.2.3.4`,
whatever the name; creation and firewall calls are rejected, so any
successful flow against it must have taken the instance-exists path. -/
def existsProvider : Provider :=
  { getInstance := fun _ _ => .ok { stateName := "running", publicIpAddress := some "1.2.3.4" }
    createInstances := fun _ => .err "unexpected create"
    putInstancePublicPorts := fun _ => .err "unexpected ports"
    deleteInstance := fun _ => .err "unexpected delete" }

/-- Stub provider holding one existing instance still pending, with no
`publicIpAddress` key. -/
def pendingProvider : Provider :=
  { getInstance := fun _ _ => .ok { stateName := "pending", publicIpAddress := none }
    createInstances := fun _ => .ok ()
    putInstancePublicPorts := fun _ => .ok ()
    deleteInstance := fun _ => .ok () }

/-- Readiness-poll stub: the first query throws a throttling error, every
query from the second (index 1) onward reports running with address
`10.0.0.5`. -/
def pollStub2 : Provider :=
  { getInstance := fun _ i =>
      if 1 ≤ i then .ok { stateName := "running", publicIpAddress := some "10.0.0.5" }
      else .err "throttled"
    createInstances := fun _ => .ok ()
    putInstancePublicPorts := fun _ => .ok ()
    deleteInstance := fun _ => .ok () }

/-- Readiness-poll stub that becomes ready only at the 30th query (index
29): with the fixed 10-second interval and the 300-second budget this is the
last query the loop makes. -/
def pollStub30 : Provider :=
  { getInstance := fun _ i =>
      if 29 ≤ i then .ok { stateName := "running", publicIpAddress := some "10.0.0.5" }
      else .err "throttled"
    createInstances := fun _ => .ok ()
    putInstancePublicPorts := fun _ => .ok ()
    deleteInstance := fun _ => .ok () }

/-- Fresh-creation stub: the existence check (query index 0) reports
NotFoundException, creation succeeds, the first poll query (index 1) reports
running with address `9.9.9.9`, and the firewall call fails. -/
def freshFwFailProvider : Provider :=
  { getInstance := fun _ i =>
      if 1 ≤ i then .ok { stateName := "running", publicIpAddress := some "9.9.9.9" }
      else .notFound
    createInstances := fun _ => .ok ()
    putInstancePublicPorts := fun _ => .err "firewall denied"
    deleteInstance := fun _ => .ok () }

/-! ## Lemmas about name derivation -/

theorem get_instance_name_length (pr : Int) (repo : String) :
    (V1.get_instance_name pr repo).length ≤ 63 := by
  unfold V1.get_instance_name
  show (List.take 63 _).length ≤ 63
  rw [List.length_take]
  exact min_le_left _ _

theorem digitChar_isDigit {d : Nat} (hd : d < 10) : (Nat.digitChar d).isDigit = true := by
  interval_cases d <;> decide

theorem mem_natToDigitsAux_isDigit :
    ∀ fuel n : Nat, ∀ c ∈ natToDigitsAux fuel n, c.isDigit = true := by
  intro fuel
  induction fuel with
  | zero => intro n c hc; simp [natToDigitsAux] at hc
  | succ f ih =>
    intro n c hc
    rw [natToDigitsAux] at hc
    by_cases h : n < 10
    · rw [if_pos h] at hc
      have := List.mem_singleton.mp hc
      subst this
      exact digitChar_isDigit h
    · rw [if_neg h] at hc
      rcases List.mem_append.mp hc with h1 | h2
      · exact ih _ c h1
      · have := List.mem_singleton.mp h2
        subst this
        exact digitChar_isDigit (Nat.mod_lt _ (by omega))

theorem mem_intToStr {i : Int} {c : Char} (hc : c ∈ intToStr i) :
    c = '-' ∨ c.isDigit = true := by
  unfold intToStr at hc
  by_cases h : i < 0
  · rw [if_pos h] at hc
    rcases List.mem_cons.mp hc with h1 | h2
    · exact Or.inl h1
    · exact Or.inr (mem_natToDigitsAux_isDigit _ _ c h2)
  · rw [if_neg h] at hc
    exact Or.inr (mem_natToDigitsAux_isDigit _ _ c hc)

theorem mem_splitLastComponent (sep : Char) :
    ∀ l : List Char, ∀ c ∈ splitLastComponent sep l, c ∈ l := by
  intro l
  induction l with
  | nil => intro c hc; simp [splitLastComponent] at hc
  | cons a as ih =>
    intro c hc
    rw [splitLastComponent] at hc
    by_cases h1 : as.contains sep = true
    · rw [if_pos h1] at hc
      exact List.mem_cons_of_mem a (ih c hc)
    · rw [if_neg h1] at hc
      by_cases h2 : a = sep
      · rw [if_pos h2] at hc
        exact List.mem_cons_of_mem a hc
      · rw [if_neg h2] at hc
        rcases List.mem_cons.mp hc with h3 | h3
        · exact h3 ▸ List.mem_cons_self a as
        · exact List.mem_cons_of_mem a (ih c h3)

theorem sep_not_mem_splitLastComponent (sep : Char) :
    ∀ l : List Char, sep ∉ splitLastComponent sep l := by
  intro l
  induction l with
  | nil => simp [splitLastComponent]
  | cons a as ih =>
    rw [splitLastComponent]
    by_cases h1 : as.contains sep = true
    · rw [if_pos h1]; exact ih
    · rw [if_neg h1]
      by_cases h2 : a = sep
      · rw [if_pos h2]
        intro hmem
        exact h1 (by simpa using hmem)
      · rw [if_neg h2]
        intro hmem
        rcases List.mem_cons.mp hmem with h3 | h3
        · exact h2 h3.symm
        · exact ih h3

theorem mem_pyReplaceChar {old new : Char} {l : List Char} {c : Char}
    (hc : c ∈ pyReplaceChar old new l) :
    ∃ d ∈ l, c = (if d = old then new else d) := by
  unfold pyReplaceChar at hc
  rcases List.mem_map.mp hc with ⟨d, hd, he⟩
  exact ⟨d, hd, he.symm⟩

theorem get_instance_name_chars (pr : Int) (repo : String) {c : Char}
    (hc : c ∈ (V1.get_instance_name pr repo).data) :
    c = 'p' ∨ c = 'r' ∨ c = '-' ∨ c.isDigit = true ∨
      ∃ d ∈ splitLastComponent '/' repo.data,
        c = (if (if d = '_' then '-' else d) = '.' then '-'
             else (if d = '_' then '-' else d)) := by
  unfold V1.get_instance_name at hc
  have hc2 := List.take_subset 63 _ hc
  rcases List.mem_append.mp hc2 with h | h
  · rcases List.mem_append.mp h with h3 | h3
    · rcases List.mem_append.mp h3 with h4 | h4
      · have e : "pr-".data = ['p', 'r', '-'] := rfl
        rw [e] at h4
        rcases List.mem_cons.mp h4 with h5 | h5
        · exact Or.inl h5
        rcases List.mem_cons.mp h5 with h6 | h6
        · exact Or.inr (Or.inl h6)
        have := List.mem_singleton.mp h6
        exact Or.inr (Or.inr (Or.inl this))
      · rcases mem_intToStr h4 with h5 | h5
        · exact Or.inr (Or.inr (Or.inl h5))
        · exact Or.inr (Or.inr (Or.inr (Or.inl h5)))
    · have e : "-".data = ['-'] := rfl
      rw [e] at h3
      have := List.mem_singleton.mp h3
      exact Or.inr (Or.inr (Or.inl this))
  · rcases mem_pyReplaceChar h with ⟨d1, hd1, he1⟩
    rcases mem_pyReplaceChar hd1 with ⟨d, hd, he2⟩
    refine Or.inr (Or.inr (Or.inr (Or.inr ⟨d, hd, ?_⟩)))
    rw [he1, he2]

theorem notSpecial_of_isDigit {c : Char} (h : c.isDigit = true) :
    (!(c == '_' || c == '.' || c == '/')) = true := by
  have h1 : c ≠ '_' := by intro e; subst e; exact absurd h (by decide)
  have h2 : c ≠ '.' := by intro e; subst e; exact absurd h (by decide)
  have h3 : c ≠ '/' := by intro e; subst e; exact absurd h (by decide)
  simp [h1, h2, h3]

theorem alnumDash_of_isDigit {c : Char} (h : c.isDigit = true) : alnumDash c = true := by
  simp [alnumDash, h]

/-- C1: name derivation is pure and deterministic, bounded by 63 characters,
and maps repo `my-org/My_Repo.App` with PR number 42 to `pr-42-My-Repo-App`
(note: case is preserved by the code). -/
theorem C1_name_derivation :
    (∀ (pr : Int) (repo : String),
        V1.get_instance_name pr repo = V1.get_instance_name pr repo)
    ∧ (∀ (pr : Int) (repo : String), (V1.get_instance_name pr repo).length ≤ 63)
    ∧ V1.get_instance_name 42 "my-org/My_Repo.App" = "pr-42-My-Repo-App" :=
  ⟨fun _ _ => rfl, fun pr repo => get_instance_name_length pr repo, by decide⟩

/-- C2 counterexample: the claim that every derived name uses only
`[a-z0-9-]` fails — the code never lowercases, and the name derived from
repo `my-org/My_Repo.App` with PR number 42 contains uppercase letters. -/
theorem C2_counterexample :
    ¬ ∀ (pr : Int) (repo : String),
        (V1.get_instance_name pr repo).data.all lowerAlnumDash = true := by
  intro h
  exact absurd (h 42 "my-org/My_Repo.App") (by decide)

/-- C2 amended: the normalization only strips the owner prefix and replaces
`_` and `.` by `-`; hence the derived name never contains `_`, `.` or `/`,
and when the repository identifier consists of letters, digits and
`- _ . /`, every character of the name is in `[a-zA-Z0-9-]` (uppercase is
preserved, so the original `[a-z0-9-]` does not hold). -/
theorem C2_amended_charset (pr : Int) (repo : String) :
    ((V1.get_instance_name pr repo).data.all
        (fun c => !(c == '_' || c == '.' || c == '/')) = true)
    ∧ (repo.data.all repoIdentChar = true →
        (V1.get_instance_name pr repo).data.all alnumDash = true) := by
  constructor
  · rw [List.all_eq_true]
    intro c hc
    rcases get_instance_name_chars pr repo hc with h | h | h | h | ⟨d, hd, he⟩
    · subst h; decide
    · subst h; decide
    · subst h; decide
    · exact notSpecial_of_isDigit h
    · have hslash : d ≠ '/' := by
        intro e
        exact sep_not_mem_splitLastComponent '/' repo.data (e ▸ hd)
      by_cases h1 : d = '_'
      · subst h1; subst he; decide
      · rw [if_neg h1] at he
        by_cases h2 : d = '.'
        · rw [if_pos h2] at he; subst he; decide
        · rw [if_neg h2] at he
          subst he
          simp [h1, h2, hslash]
  · intro hrepo
    rw [List.all_eq_true]
    intro c hc
    rcases get_instance_name_chars pr repo hc with h | h | h | h | ⟨d, hd, he⟩
    · subst h; decide
    · subst h; decide
    · subst h; decide
    · exact alnumDash_of_isDigit h
    · have hdrepo : repoIdentChar d = true :=
        List.all_eq_true.mp hrepo d (mem_splitLastComponent '/' repo.data d hd)
      have hslash : d ≠ '/' := by
        intro e
        exact sep_not_mem_splitLastComponent '/' repo.data (e ▸ hd)
      by_cases h1 : d = '_'
      · subst h1; subst he; decide
      · rw [if_neg h1] at he
        by_cases h2 : d = '.'
        · rw [if_pos h2] at he; subst he; decide
        · rw [if_neg h2] at he
          subst he
          rcases Bool.or_eq_true_iff.mp hdrepo with h3 | h3
          · rcases Bool.or_eq_true_iff.mp h3 with h4 | h4
            · rcases Bool.or_eq_true_iff.mp h4 with h5 | h5
              · rcases Bool.or_eq_true_iff.mp h5 with h6 | h6
                · rcases Bool.or_eq_true_iff.mp h6 with h7 | h7
                  · simp [alnumDash, h7]
                  · simp [alnumDash, h7]
                · simp [alnumDash, h6]
              · exact absurd h5 (by simp [h1])
            · exact absurd h4 (by simp [h2])
          · exact absurd h3 (by simp [hslash])

/-- Witness for the C2 amended statement at the spec's example inputs. -/
theorem C2_amended_charset_witness :
    (V1.get_instance_name 42 "my-org/My_Repo.App").data.all alnumDash = true :=
  (C2_amended_charset 42 "my-org/My_Repo.App").2 (by decide)

/-! ## Lemmas about the readiness poll -/

theorem wfiGo_step_ready {P : Provider} {n : String} {t0 mw fuel i : Nat} {a : String}
    (ht : 10 * i < mw) (h : readyResp (P.getInstance n (t0 + i)) = some a) :
    V1.wfiGo P n t0 mw (fuel + 1) i = (some a, 1) := by
  rw [V1.wfiGo, if_pos ht]
  cases hg : P.getInstance n (t0 + i) with
  | ok inst =>
    rw [hg] at h
    simp only [readyResp] at h
    dsimp only
    by_cases hc : (inst.stateName == "running" && inst.publicIpAddress.isSome) = true
    · rw [if_pos hc] at h ⊢
      rw [h]
    · rw [if_neg hc] at h
      exact absurd h (by simp)
  | notFound => rw [hg] at h; exact absurd h (by simp [readyResp])
  | err m => rw [hg] at h; exact absurd h (by simp [readyResp])

theorem wfiGo_step_notReady {P : Provider} {n : String} {t0 mw fuel i : Nat}
    (ht : 10 * i < mw) (h : readyResp (P.getInstance n (t0 + i)) = none) :
    V1.wfiGo P n t0 mw (fuel + 1) i =
      ((V1.wfiGo P n t0 mw fuel (i + 1)).1, (V1.wfiGo P n t0 mw fuel (i + 1)).2 + 1) := by
  rw [V1.wfiGo, if_pos ht]
  cases hg : P.getInstance n (t0 + i) with
  | ok inst =>
    rw [hg] at h
    simp only [readyResp] at h
    dsimp only
    by_cases hc : (inst.stateName == "running" && inst.publicIpAddress.isSome) = true
    · rw [if_pos hc] at h
      rw [Bool.and_eq_true] at hc
      rw [h] at hc
      exact absurd hc.2 (by simp)
    · rw [if_neg hc]
  | notFound => rfl
  | err m => rfl

theorem wfiGo_step_elapsed {P : Provider} {n : String} {t0 mw fuel i : Nat}
    (ht : ¬ 10 * i < mw) :
    V1.wfiGo P n t0 mw (fuel + 1) i = (none, 0) := by
  rw [V1.wfiGo, if_neg ht]

theorem wfiGo_success (P : Provider) (n a : String) (t0 mw K : Nat)
    (hb : ∀ j, j < K - 1 → readyResp (P.getInstance n (t0 + j)) = none)
    (ha : readyResp (P.getInstance n (t0 + (K - 1))) = some a)
    (hmw : 10 * (K - 1) < mw) :
    ∀ fuel i, i ≤ K - 1 → K - 1 - i < fuel →
      V1.wfiGo P n t0 mw fuel i = (some a, K - 1 - i + 1) := by
  intro fuel
  induction fuel with
  | zero => intro i _ hf; omega
  | succ f ih =>
    intro i hi hf
    have ht : 10 * i < mw := lt_of_le_of_lt (by omega) hmw
    by_cases he : i = K - 1
    · subst he
      rw [wfiGo_step_ready ht ha]
      simp
    · have hilt : i < K - 1 := by omega
      rw [wfiGo_step_notReady ht (hb i hilt)]
      rw [ih (i + 1) (by omega) (by omega)]
      dsimp only
      congr 1
      omega

theorem wfiGo_timeout (P : Provider) (n : String) (t0 mw : Nat)
    (hall : ∀ j, 10 * j < mw → readyResp (P.getInstance n (t0 + j)) = none) :
    ∀ fuel i, (mw + 9) / 10 - i ≤ fuel →
      V1.wfiGo P n t0 mw fuel i = (none, (mw + 9) / 10 - i) := by
  intro fuel
  induction fuel with
  | zero =>
    intro i hf
    rw [V1.wfiGo]
    congr 1
    omega
  | succ f ih =>
    intro i hf
    by_cases ht : 10 * i < mw
    · rw [wfiGo_step_notReady ht (hall i ht)]
      rw [ih (i + 1) (by omega)]
      dsimp only
      congr 1
      omega
    · rw [wfiGo_step_elapsed ht]
      have : (mw + 9) / 10 - i = 0 := by omega
      rw [this]

/-- C5 counterexample: with the 10-second interval and 300-second budget, a
stub that becomes ready only at the 30th query violates the claim: the claim
requires a timeout whenever `K * interval` is not below the budget
(`30 * 10 = 300`), but the 30th query still happens (elapsed time 290 s) and
the code returns the address. -/
theorem C5_counterexample :
    ¬ (30 * 10 < 300) ∧
    (V1.wait_for_instance pollStub30 "pr-7-widgets" 0 300).1 = some "10.0.0.5" :=
  ⟨by decide, by decide⟩

/-- C5 amended: against a stub that is not ready (errors included, which are
retried) before its K-th query (query indices 0, ..., K-2) and running with
address `a` from the K-th onward, the poll returns `a` after exactly `K`
queries when `(K - 1) * interval < timeout` (the K-th query starts at elapsed
time `10 * (K - 1)`), and otherwise times out with `none` after
`ceil(timeout / 10)` queries.  The original claim drew the boundary at
`K * interval < timeout`, which misclassifies the case
`timeout <= K * interval < timeout + interval`. -/
theorem C5_amended_poll (P : Provider) (name a : String) (K max_wait : Nat)
    (hK : 1 ≤ K)
    (hbefore : ∀ i, i < K - 1 → readyResp (P.getInstance name i) = none)
    (hafter : ∀ i, K - 1 ≤ i → P.getInstance name i = .ok ⟨"running", some a⟩) :
    (10 * (K - 1) < max_wait →
      V1.wait_for_instance P name 0 max_wait = (some a, K))
    ∧ (max_wait ≤ 10 * (K - 1) →
      V1.wait_for_instance P name 0 max_wait = (none, (max_wait + 9) / 10)) := by
  constructor
  · intro hmw
    have hb : ∀ j, j < K - 1 → readyResp (P.getInstance name (0 + j)) = none := by
      intro j hj
      simpa using hbefore j hj
    have ha : readyResp (P.getInstance name (0 + (K - 1))) = some a := by
      have := hafter (K - 1) (le_refl _)
      rw [Nat.zero_add, this]
      simp [readyResp]
    unfold V1.wait_for_instance
    rw [wfiGo_success P name a 0 max_wait K hb ha hmw (max_wait / 10 + 1) 0
      (by omega) (by omega)]
    congr 1
    omega
  · intro hmw
    have hall : ∀ j, 10 * j < max_wait → readyResp (P.getInstance name (0 + j)) = none := by
      intro j hj
      have : j < K - 1 := by omega
      simpa using hbefore j this
    unfold V1.wait_for_instance
    rw [wfiGo_timeout P name 0 max_wait hall (max_wait / 10 + 1) 0 (by omega)]
    congr 1

/-- Witness for the C5 amended statement: a stub whose first query throws and
whose second query is ready (K = 2) yields the address after exactly two
queries. -/
theorem C5_amended_poll_witness :
    V1.wait_for_instance pollStub2 "pr-7-widgets" 0 300 = (some "10.0.0.5", 2) := by
  have h := C5_amended_poll pollStub2 "pr-7-widgets" "10.0.0.5" 2 300 (by decide)
    (fun i hi => by interval_cases i; decide)
    (fun i hi => by
      show (if 1 ≤ i then _ else _) = _
      rw [if_pos hi])
  exact h.1 (by decide)

/-- C3: when the provider reports the instance as not found on delete,
`delete_instance` returns `True`, so does `delete_preview`, and the `delete`
CLI action exits with code 0. -/
theorem C3_idempotent_delete (P : Provider) (pr : Int) (repo : String)
    (h : P.deleteInstance (V1.get_instance_name pr repo) = .notFound) :
    V1.delete_instance P (V1.get_instance_name pr repo) = true
    ∧ (V1.delete_preview P pr repo).1 = true
    ∧ (V1.main P ⟨"delete", pr, repo, none, none⟩).1 = 0 := by
  have hdel : V1.delete_instance P (V1.get_instance_name pr repo) = true := by
    unfold V1.delete_instance
    rw [h]
  refine ⟨hdel, hdel, ?_⟩
  unfold V1.main V1.delete_preview
  dsimp only
  rw [if_neg (show ¬("delete" : String) = "create" by decide)]
  rw [hdel]

/-- Witness for C3: deleting against a provider that reports every instance
absent succeeds with exit code 0. -/
theorem C3_idempotent_delete_witness :
    V1.delete_instance notFoundProvider (V1.get_instance_name 7 "acme/widgets") = true
    ∧ (V1.delete_preview notFoundProvider 7 "acme/widgets").1 = true
    ∧ (V1.main notFoundProvider ⟨"delete", 7, "acme/widgets", none, none⟩).1 = 0 :=
  C3_idempotent_delete notFoundProvider 7 "acme/widgets" rfl

/-- C7: a `create` invocation with a missing (or empty) `--branch` or
`--commit-sha` exits with code 1 and performs no provider call at all. -/
theorem C7_usage_error (P : Provider) (a : Args)
    (hact : a.action = "create")
    (hmiss : strFalsy a.branch = true ∨ strFalsy a.commit_sha = true) :
    V1.main P a = (1, []) := by
  unfold V1.main
  rw [if_pos hact]
  rcases hmiss with h | h <;> simp [h]

/-- Witness for C7: `create` without `--branch` exits 1 with an empty call
trace even against a live provider stub. -/
theorem C7_usage_error_witness :
    V1.main existsProvider ⟨"create", 7, "acme/widgets", none, some "abcdef1"⟩ = (1, []) :=
  C7_usage_error existsProvider _ rfl (Or.inl rfl)

/-- C9: the two variants agree extensionally on name derivation, existence
check, readiness polling (same returned address and same number of
`get_instance` queries, hence the same provider-call sequence), firewall
configuration and teardown; the sources differ only in `create_instance`
payload and in the deployment step. -/
theorem C9_variants_agree :
    (∀ (pr : Int) (repo : String),
        V1.get_instance_name pr repo = V2.get_instance_name pr repo)
    ∧ (∀ (P : Provider) (n : String) (t : Nat),
        V1.instance_exists P n t = V2.instance_exists P n t)
    ∧ (∀ (P : Provider) (n : String) (t0 mw : Nat),
        V1.wait_for_instance P n t0 mw = V2.wait_for_instance P n t0 mw)
    ∧ (∀ (P : Provider) (n : String),
        V1.configure_firewall P n = V2.configure_firewall P n)
    ∧ (∀ (P : Provider) (n : String),
        V1.delete_instance P n = V2.delete_instance P n) := by
  refine ⟨fun _ _ => rfl, fun _ _ _ => rfl, fun P n t0 mw => ?_, fun _ _ => rfl,
    fun _ _ => rfl⟩
  unfold V1.wait_for_instance V2.wait_for_instance
  have : ∀ fuel i, V1.wfiGo P n t0 mw fuel i = V2.wfiGo P n t0 mw fuel i := by
    intro fuel
    induction fuel with
    | zero => intro i; rfl
    | succ f ih =>
      intro i
      rw [V1.wfiGo, V2.wfiGo, ih (i + 1)]
  exact this _ 0

/-- C6 (code bug): when the instance already exists but is still pending
with no `publicIpAddress` key, the create flow does not poll — it reads the
missing key with a plain dict subscript and dies with an uncaught KeyError,
so the process exits 1 instead of obtaining an address. -/
theorem C6_pending_address_keyerror :
    (V1.create_preview pendingProvider 7 "acme/widgets" "feature-x" "abcdef1").1 =
      CreateResult.keyErr
    ∧ (V1.main pendingProvider ⟨"create", 7, "acme/widgets", some "feature-x",
        some "abcdef1"⟩).1 = 1 :=
  ⟨by decide, by decide⟩

/-! ## Lemmas about the create flow -/

theorem countCreate_append (l1 l2 : List Event) :
    countCreate (l1 ++ l2) = countCreate l1 + countCreate l2 := by
  unfold countCreate
  rw [List.filter_append, List.length_append]

theorem countCreate_replicate_get (q : Nat) (n : String) :
    countCreate (List.replicate q (Event.getCall n)) = 0 := by
  induction q with
  | zero => rfl
  | succ k ih =>
    rw [List.replicate_succ]
    unfold countCreate at ih ⊢
    rw [List.filter_cons]
    simp only [isCreateCall]
    exact ih

theorem create_preview_exists_ip (P : Provider) (pr : Int)
    (repo branch sha ip : String) (inst inst2 : Instance)
    (h0 : P.getInstance (V1.get_instance_name pr repo) 0 = .ok inst)
    (h1 : P.getInstance (V1.get_instance_name pr repo) 1 = .ok inst2)
    (hip : inst2.publicIpAddress = some ip) :
    V1.create_preview P pr repo branch sha =
      (.ok ip, [.getCall (V1.get_instance_name pr repo),
                .getCall (V1.get_instance_name pr repo),
                .deployStep (V1.get_instance_name pr repo) ip]) := by
  unfold V1.create_preview V1.instance_exists
  dsimp only
  rw [h0]
  dsimp only
  rw [h1]
  dsimp only
  rw [hip]

theorem create_preview_fresh_ok (P : Provider) (pr : Int)
    (repo branch sha ip : String) (q : Nat) (hip : ip ≠ "")
    (h0 : P.getInstance (V1.get_instance_name pr repo) 0 = .notFound)
    (hc : P.createInstances (V1.get_instance_name pr repo) = .ok ())
    (hw : V1.wait_for_instance P (V1.get_instance_name pr repo) 1 300 = (some ip, q)) :
    V1.create_preview P pr repo branch sha =
      (.ok ip, ([.getCall (V1.get_instance_name pr repo),
                 .createCall (V1.get_instance_name pr repo)] ++
          List.replicate q (.getCall (V1.get_instance_name pr repo))) ++
        [.portsCall (V1.get_instance_name pr repo),
         .deployStep (V1.get_instance_name pr repo) ip]) := by
  unfold V1.create_preview V1.instance_exists V1.create_instance
  dsimp only
  rw [h0]
  dsimp only
  rw [hc]
  dsimp only
  rw [hw]
  simp [hip]

theorem countCreate_create_preview_le_one (P : Provider) (pr : Int)
    (repo branch sha : String) :
    countCreate (V1.create_preview P pr repo branch sha).2 ≤ 1 := by
  unfold V1.create_preview V1.instance_exists V1.create_instance
  dsimp only
  cases h0 : P.getInstance (V1.get_instance_name pr repo) 0 with
  | ok inst =>
    dsimp only
    cases h1 : P.getInstance (V1.get_instance_name pr repo) 1 with
    | ok inst2 =>
      dsimp only
      cases hip : inst2.publicIpAddress with
      | some ip => simp [countCreate, isCreateCall]
      | none => simp [countCreate, isCreateCall]
    | notFound => simp [countCreate, isCreateCall]
    | err m => simp [countCreate, isCreateCall]
  | notFound =>
    dsimp only
    cases hc : P.createInstances (V1.get_instance_name pr repo) with
    | ok u =>
      dsimp only
      cases hw : V1.wait_for_instance P (V1.get_instance_name pr repo) 1 300 with
      | mk o q =>
        cases o with
        | some ip =>
          cases hz : (ip == "") <;>
            simp [hz, countCreate_append, countCreate_replicate_get, countCreate,
              isCreateCall]
        | none =>
          simp [countCreate_append, countCreate_replicate_get, countCreate, isCreateCall]
    | notFound => simp [countCreate, isCreateCall]
    | err m => simp [countCreate, isCreateCall]
  | err m => simp [countCreate, isCreateCall]

theorem wfiGo_congr (P Q : Provider) (hg : Q.getInstance = P.getInstance)
    (n : String) (t0 mw : Nat) :
    ∀ fuel i, V1.wfiGo Q n t0 mw fuel i = V1.wfiGo P n t0 mw fuel i := by
  intro fuel
  induction fuel with
  | zero => intro i; rfl
  | succ f ih =>
    intro i
    rw [V1.wfiGo, V1.wfiGo, hg, ih (i + 1)]

theorem create_preview_ports_independent (P Q : Provider) (pr : Int)
    (repo branch sha : String)
    (hg : Q.getInstance = P.getInstance) (hc : Q.createInstances = P.createInstances) :
    V1.create_preview Q pr repo branch sha = V1.create_preview P pr repo branch sha := by
  unfold V1.create_preview V1.instance_exists V1.create_instance V1.wait_for_instance
  dsimp only
  rw [hg, hc, wfiGo_congr P Q hg (V1.get_instance_name pr repo) 1 300]

theorem main_create_ok (P : Provider) (pr : Int) (repo branch sha ip : String)
    (hbr : branch ≠ "") (hsha : sha ≠ "")
    (h : (V1.create_preview P pr repo branch sha).1 = .ok ip) :
    (V1.main P ⟨"create", pr, repo, some branch, some sha⟩).1 = 0 := by
  unfold V1.main
  dsimp only
  rw [if_pos rfl]
  have hf1 : strFalsy (some branch) = false := by simp [strFalsy, hbr]
  have hf2 : strFalsy (some sha) = false := by simp [strFalsy, hsha]
  rw [hf1, hf2]
  simp only [Bool.or_self, Bool.false_eq_true, if_false, Option.getD_some]
  rcases hcp : V1.create_preview P pr repo branch sha with ⟨res, tr⟩
  rw [hcp] at h
  dsimp only at h
  subst h
  rfl

/-- C4: within one create invocation the provider-side creation happens at
most once, and when the existence check observes the instance (the situation
of a second successive invocation for the same derived name, the first
having left the instance running with an address), no `create_instances`
call is made at all and the flow goes straight to deployment. -/
theorem C4_creation_at_most_once (P : Provider) (pr : Int) (repo branch sha : String) :
    countCreate (V1.create_preview P pr repo branch sha).2 ≤ 1
    ∧ (∀ (inst inst2 : Instance) (ip : String),
        P.getInstance (V1.get_instance_name pr repo) 0 = .ok inst →
        P.getInstance (V1.get_instance_name pr repo) 1 = .ok inst2 →
        inst2.publicIpAddress = some ip →
        countCreate (V1.create_preview P pr repo branch sha).2 = 0
        ∧ (V1.create_preview P pr repo branch sha).2 =
            [.getCall (V1.get_instance_name pr repo),
             .getCall (V1.get_instance_name pr repo),
             .deployStep (V1.get_instance_name pr repo) ip]
        ∧ (V1.create_preview P pr repo branch sha).1 = .ok ip) := by
  refine ⟨countCreate_create_preview_le_one P pr repo branch sha, ?_⟩
  intro inst inst2 ip h0 h1 hip
  rw [create_preview_exists_ip P pr repo branch sha ip inst inst2 h0 h1 hip]
  exact ⟨by simp [countCreate, isCreateCall], rfl, rfl⟩

/-- Witness for C4: against a provider already holding a running instance,
the create flow issues no creation call and ends in deployment. -/
theorem C4_creation_at_most_once_witness :
    countCreate (V1.create_preview existsProvider 7 "acme/widgets" "feature-x" "abcdef1").2 = 0
    ∧ (V1.create_preview existsProvider 7 "acme/widgets" "feature-x" "abcdef1").2 =
        [.getCall "pr-7-widgets", .getCall "pr-7-widgets",
         .deployStep "pr-7-widgets" "1.2.3.4"]
    ∧ (V1.create_preview existsProvider 7 "acme/widgets" "feature-x" "abcdef1").1 =
        .ok "1.2.3.4" := by
  have h := (C4_creation_at_most_once existsProvider 7 "acme/widgets" "feature-x" "abcdef1").2
    ⟨"running", some "1.2.3.4"⟩ ⟨"running", some "1.2.3.4"⟩ "1.2.3.4" rfl rfl rfl
  have e : V1.get_instance_name 7 "acme/widgets" = "pr-7-widgets" := by decide
  rw [e] at h
  exact h

/-- C8: the outcome of `create_preview` (result and call trace) is invariant
under replacing the provider's firewall operation by any other behaviour,
and whenever the flow reaches the firewall step (fresh path with a
non-empty address obtained — on a falsy address Python's
`if not instance_ip: sys.exit(1)` exits before the firewall step),
deployment and the success result still occur. -/
theorem C8_firewall_best_effort (P : Provider) (f : String → ApiResult Unit)
    (pr : Int) (repo branch sha : String) :
    V1.create_preview
        { getInstance := P.getInstance
          createInstances := P.createInstances
          putInstancePublicPorts := f
          deleteInstance := P.deleteInstance } pr repo branch sha
      = V1.create_preview P pr repo branch sha
    ∧ (∀ (ip : String) (q : Nat), ip ≠ "" →
        P.getInstance (V1.get_instance_name pr repo) 0 = .notFound →
        P.createInstances (V1.get_instance_name pr repo) = .ok () →
        V1.wait_for_instance P (V1.get_instance_name pr repo) 1 300 = (some ip, q) →
        (V1.create_preview P pr repo branch sha).1 = .ok ip
        ∧ Event.portsCall (V1.get_instance_name pr repo) ∈
            (V1.create_preview P pr repo branch sha).2
        ∧ Event.deployStep (V1.get_instance_name pr repo) ip ∈
            (V1.create_preview P pr repo branch sha).2) := by
  constructor
  · exact create_preview_ports_independent P _ pr repo branch sha rfl rfl
  · intro ip q hip h0 hc hw
    rw [create_preview_fresh_ok P pr repo branch sha ip q hip h0 hc hw]
    exact ⟨rfl, by simp, by simp⟩

/-- Witness for C8: a fresh create against a provider whose firewall call is
rejected still reaches deployment and returns the address. -/
theorem C8_firewall_best_effort_witness :
    (V1.create_preview freshFwFailProvider 7 "acme/widgets" "feature-x" "abcdef1").1 =
      CreateResult.ok "9.9.9.9"
    ∧ Event.portsCall "pr-7-widgets" ∈
        (V1.create_preview freshFwFailProvider 7 "acme/widgets" "feature-x" "abcdef1").2
    ∧ Event.deployStep "pr-7-widgets" "9.9.9.9" ∈
        (V1.create_preview freshFwFailProvider 7 "acme/widgets" "feature-x" "abcdef1").2 := by
  have h := (C8_firewall_best_effort freshFwFailProvider (fun _ => ApiResult.err "x")
      7 "acme/widgets" "feature-x" "abcdef1").2 "9.9.9.9" 1 (by decide) (by decide)
      (by decide) (by decide)
  have e : V1.get_instance_name 7 "acme/widgets" = "pr-7-widgets" := by decide
  rw [e] at h
  exact h

/-- C10: `deploy_application` returns `True` for every input in both
variants, so once the create flow has an address — on the exists path (any
address, the code applies no falsy check there) or the fresh path (a
non-empty address: the falsy check `if not instance_ip: sys.exit(1)` guards
that path before the firewall step) — `create_preview` returns `True` and
the process exits 0, with no hypothesis on the firewall call's outcome and
none on deployment. -/
theorem C10_deploy_always_true (P : Provider) (pr : Int)
    (repo branch sha ip : String) (hbr : branch ≠ "") (hsha : sha ≠ "") :
    (∀ a b c d e, V1.deploy_application a b c d e = true)
    ∧ (∀ a b c d e, V2.deploy_application a b c d e = true)
    ∧ (∀ (inst inst2 : Instance),
        P.getInstance (V1.get_instance_name pr repo) 0 = .ok inst →
        P.getInstance (V1.get_instance_name pr repo) 1 = .ok inst2 →
        inst2.publicIpAddress = some ip →
        (V1.create_preview P pr repo branch sha).1 = .ok ip
        ∧ (V1.main P ⟨"create", pr, repo, some branch, some sha⟩).1 = 0)
    ∧ (∀ q : Nat, ip ≠ "" →
        P.getInstance (V1.get_instance_name pr repo) 0 = .notFound →
        P.createInstances (V1.get_instance_name pr repo) = .ok () →
        V1.wait_for_instance P (V1.get_instance_name pr repo) 1 300 = (some ip, q) →
        (V1.create_preview P pr repo branch sha).1 = .ok ip
        ∧ (V1.main P ⟨"create", pr, repo, some branch, some sha⟩).1 = 0) := by
  refine ⟨fun _ _ _ _ _ => rfl, fun _ _ _ _ _ => rfl, ?_, ?_⟩
  · intro inst inst2 h0 h1 hip
    have hres : (V1.create_preview P pr repo branch sha).1 = .ok ip := by
      rw [create_preview_exists_ip P pr repo branch sha ip inst inst2 h0 h1 hip]
    exact ⟨hres, main_create_ok P pr repo branch sha ip hbr hsha hres⟩
  · intro q hnz h0 hc hw
    have hres : (V1.create_preview P pr repo branch sha).1 = .ok ip := by
      rw [create_preview_fresh_ok P pr repo branch sha ip q hnz h0 hc hw]
    exact ⟨hres, main_create_ok P pr repo branch sha ip hbr hsha hres⟩

/-- Witness for C10: a fresh create whose firewall call fails still reports
success with exit code 0. -/
theorem C10_deploy_always_true_witness :
    (V1.create_preview freshFwFailProvider 7 "acme/widgets" "feature-x" "abcdef1").1 =
      CreateResult.ok "9.9.9.9"
    ∧ (V1.main freshFwFailProvider
        ⟨"create", 7, "acme/widgets", some "feature-x", some "abcdef1"⟩).1 = 0 :=
  (C10_deploy_always_true freshFwFailProvider 7 "acme/widgets" "feature-x" "abcdef1"
    "9.9.9.9" (by decide) (by decide)).2.2.2 1 (by decide) (by decide) (by decide)
    (by decide)
